import Mathlib

/-!
Shallow embedding of the `metadataserver` Go package (github.com/minherz/metadataserver).

Translated source:
  - configuration model (`config.go` material in src/unnamed/part_000):
    `Metadata`, `Configuration`, `jsonConfiguration`, the `Default*` constants,
    `DefaultConfigurationHandlers`, `NewConfigFromFile`, `NewConfiguration`, `convert`;
  - server (`metadataserver.go`): `Server`, the `With*` options, `New`,
    `Server.Start`, `Server.Stop`.

Modelling conventions:
  - The process environment is a total function `Env : String → String`;
    `os.Getenv` returns `""` for an unset variable, so "unset" is modelled as
    mapping to `""`.
  - A Go `Metadata` value (`func() string`) is a closure that may read the
    environment at call time, so it is embedded as `Env → String`.
  - Go maps with string keys are embedded as association lists
    `List (String × _)`; JSON decoding produces unique keys, and lookup takes
    the first match.
  - File reading and JSON unmarshalling are external collaborators: they are
    modelled as an `Except String JsonConfiguration` input (the decoded
    document, or a read/decode error), where absent document fields carry Go's
    zero values (`""`, `0`, `[]`), exactly as `encoding/json` leaves them.
  - A Go panic is modelled by returning `none` from `New`.
  - The `chan error` field `Server.status` is only ever tested against `nil`
    by the lifecycle code, so it is embedded as a `Bool` (`true` = non-nil).
    The outcome of the asynchronous `ListenAndServe` call within the 100 ms
    grace window is an explicit `Option String` input to `Start` (`some msg` =
    a bind/listen error arrived inside the window), and the outcome of
    `http.Server.Shutdown` is an explicit `Option String` input to `Stop`.
-/

/-- Environment of the process: `os.Getenv` semantics, `""` when unset. -/
abbrev Env : Type := String → String

/-- Go `type Metadata func() string`: a provider closure, possibly reading the
environment at invocation time. -/
abbrev Metadata : Type := Env → String

/-- Go `type Configuration struct` from the configuration file of the package. -/
structure Configuration where
  Port : Int
  Address : String
  Endpoint : String
  Handlers : List (String × Metadata)
  ShutdownTimeout : Int

/-- Decoded form of the JSON configuration document, Go `type jsonConfiguration
struct`. Fields absent from the document carry Go zero values (`""`, `0`, `[]`). -/
structure JsonConfiguration where
  Address : String
  Endpoint : String
  Handlers : List (String × JValue)
  Port : Int
  ShutdownTimeout : Int

/-- Values produced by `encoding/json` unmarshalling into `any`:
`nil`, `bool`, `float64`, `string`, `[]any`, `map[string]any`.
Numbers are restricted to the integral `float64` values of magnitude below
`1e21`, for which Go's `%v` verb prints the plain decimal digits. -/
inductive JValue where
  | null
  | boolean (b : Bool)
  | num (n : Int)
  | str (s : String)
  | arr (elems : List JValue)
  | obj (fields : List (String × JValue))

/-- Go constant `DefaultAddress`. -/
def DefaultAddress : String := "169.254.169.254"

/-- Go constant `DefaultEndpoint`. -/
def DefaultEndpoint : String := "/computeMetadata/v1"

/-- Go constant `DefaultPort`. -/
def DefaultPort : Int := 80

/-- Go constant `DefaultShutdownTimeout`. -/
def DefaultShutdownTimeout : Int := 5

/-- Go `var DefaultConfigurationHandlers`: one static handler simulating a
project-id lookup. -/
def DefaultConfigurationHandlers : List (String × Metadata) :=
  [("project/project-id", fun _ => "test-project-id")]

/-- Go `var EmptyConfigurationHandlers`. -/
def EmptyConfigurationHandlers : List (String × Metadata) := []

/-- Go `func NewConfiguration(handlers map[string]Metadata) *Configuration`:
an empty (or nil) handler map falls back to the built-in default handlers. -/
def NewConfiguration (handlers : List (String × Metadata)) : Configuration :=
  let hs := if handlers.isEmpty then DefaultConfigurationHandlers else handlers
  { Address := DefaultAddress
    Endpoint := DefaultEndpoint
    Handlers := hs
    Port := DefaultPort
    ShutdownTimeout := DefaultShutdownTimeout }

/-- Strict lexicographic order on character lists, the order in which Go's
`fmt` package prints string map keys (byte order; the keys here are ASCII). -/
def charListLt : List Char → List Char → Bool
  | [], [] => false
  | [], _ :: _ => true
  | _ :: _, [] => false
  | a :: as, b :: bs => if a < b then true else if b < a then false else charListLt as bs

/-- Insertion step for sorting printed map entries by key, as Go's `fmt`
package prints maps in sorted key order. -/
def insertByKey (p : String × String) : List (String × String) → List (String × String)
  | [] => [p]
  | q :: qs =>
      if charListLt q.1.data p.1.data then q :: insertByKey p qs else p :: q :: qs

/-- Sort printed map entries by key (insertion sort). -/
def sortByKey : List (String × String) → List (String × String)
  | [] => []
  | p :: ps => insertByKey p (sortByKey ps)

mutual
/-- Go `fmt.Sprintf("%v", v)` on a decoded JSON value: strings print as
themselves, booleans as `true`/`false`, integral numbers as decimal digits,
`nil` as `<nil>`, slices as space-separated values in brackets, and maps as
`map[k:v ...]` with entries sorted by key. -/
def sprintV : JValue → String
  | JValue.null => "<nil>"
  | JValue.boolean b => if b then "true" else "false"
  | JValue.num n => toString n
  | JValue.str s => s
  | JValue.arr xs => "[" ++ String.intercalate " " (sprintVList xs) ++ "]"
  | JValue.obj fs =>
      "map[" ++
        String.intercalate " "
          ((sortByKey (sprintVFields fs)).map fun p => p.1 ++ ":" ++ p.2) ++ "]"

/-- Format each element of a decoded JSON array. -/
def sprintVList : List JValue → List String
  | [] => []
  | x :: xs => sprintV x :: sprintVList xs

/-- Format each value of a decoded JSON object. -/
def sprintVFields : List (String × JValue) → List (String × String)
  | [] => []
  | (k, v) :: fs => (k, sprintV v) :: sprintVFields fs
end

/-- Loop body of Go `func convert(m map[string]any) map[string]Metadata` for a
single map value: a JSON object with a `value` key becomes a static provider of
that value's `%v` form; otherwise an object with an `env` key becomes a
provider reading the named environment variable at each invocation; anything
else is skipped (the loop body adds no entry). -/
def convertEntry : JValue → Option Metadata
  | JValue.obj fields =>
      match fields.lookup "value" with
      | some v2 => some (fun _ => sprintV v2)
      | none =>
          match fields.lookup "env" with
          | some v2 => some (fun env => env (sprintV v2))
          | none => none
  | _ => none

/-- Go `func convert(m map[string]any) map[string]Metadata`: apply
`convertEntry` to every entry, keeping only the recognized ones. -/
def convert (m : List (String × JValue)) : List (String × Metadata) :=
  m.filterMap fun kv => (convertEntry kv.2).map fun h => (kv.1, h)

/-- Go's byte test `s[0] == '/'` on a non-empty string; `false` on the empty
string (where Go would panic — callers guard or panic, see `ensureSlash`/`New`).
Since `'/'` is ASCII, first byte `'/'` coincides with first character `'/'`. -/
def startsWithSlash (s : String) : Bool :=
  match s.data with
  | [] => false
  | c :: _ => c == '/'

/-- Slash-prefix normalization used by both `NewConfigFromFile` and `New`:
Go tests `s[0] != '/'` and prepends `"/"` when the first byte is not a slash.
The byte-0 index requires a non-empty string; callers either guard for
non-emptiness (`NewConfigFromFile`) or panic on `""` (`New`, modelled there). -/
def ensureSlash (s : String) : String :=
  if startsWithSlash s then s else String.mk ('/' :: s.data)

/-- Body of Go `func NewConfigFromFile` after a successful read and unmarshal
(lines building `c` from `jc`): defaults, then positive `port` and
`shutdownTimeout`, non-empty `address` and `endpoint` override; `endpoint` is
slash-prefixed; the handler map is unconditionally replaced by
`convert(jc.Handlers)`. -/
def mergeConfig (jc : JsonConfiguration) : Configuration :=
  let c := NewConfiguration DefaultConfigurationHandlers
  let c := if jc.Port > 0 then { c with Port := jc.Port } else c
  let c := if jc.ShutdownTimeout > 0 then { c with ShutdownTimeout := jc.ShutdownTimeout } else c
  let c := if jc.Address ≠ "" then { c with Address := jc.Address } else c
  let c := if jc.Endpoint ≠ "" then { c with Endpoint := ensureSlash jc.Endpoint } else c
  { c with Handlers := convert jc.Handlers }

/-- Go `func NewConfigFromFile(path string) (*Configuration, error)`: the file
read and JSON unmarshal are external collaborators, modelled by the
`Except`-valued argument (their combined outcome for the given path); their
errors are returned as-is, a decoded document is merged onto defaults. -/
def NewConfigFromFile (decoded : Except String JsonConfiguration) :
    Except String Configuration :=
  match decoded with
  | Except.error e => Except.error e
  | Except.ok jc => Except.ok (mergeConfig jc)

/-- Split a character list into its `/`-separated segments (the segment view
of a path Go's `path.Clean` scans byte by byte): `splitOnSlash "".data = [[]]`,
`splitOnSlash "/a".data = [[], ['a']]`. -/
def splitOnSlash (cs : List Char) : List (List Char) :=
  match cs with
  | [] => [[]]
  | c :: rest =>
      let r := splitOnSlash rest
      if c = '/' then [] :: r
      else
        match r with
        | [] => [[c]]
        | s :: ss => (c :: s) :: ss

/-- One step of the segment stack of Go `path.Clean`: empty and `.` segments
are dropped; `..` pops a segment (at the root it is dropped when the path is
rooted, and kept when the path is relative and nothing can be popped); other
segments are pushed. -/
def cleanStep (rooted : Bool) (stack : List (List Char)) (seg : List Char) :
    List (List Char) :=
  if seg = [] || seg = ['.'] then stack
  else if seg = ['.', '.'] then
    if rooted then stack.tail
    else
      match stack with
      | [] => [['.', '.']]
      | top :: rest => if top = ['.', '.'] then ['.', '.'] :: top :: rest else rest
  else seg :: stack

/-- Interleave the cleaned segments with `/` separators. -/
def joinSegs : List (List Char) → List Char
  | [] => []
  | [s] => s
  | s :: rest => s ++ '/' :: joinSegs rest

/-- Go `path.Clean`: lexical cleaning of a slash-separated path — collapse
multiple slashes, drop `.` segments, resolve `..` against preceding segments
(never above the root of a rooted path), return `"."` for an empty relative
result and `"/"` for an empty rooted result. -/
def pathClean (p : String) : String :=
  if p = "" then "."
  else
    let rooted := startsWithSlash p
    let segs := ((splitOnSlash p.data).foldl (cleanStep rooted) []).reverse
    if segs.isEmpty then (if rooted then "/" else ".")
    else String.mk ((if rooted then ['/'] else []) ++ joinSegs segs)

/-- Go `path.Join` restricted to two elements, as called in `New`:
empty elements are skipped, the rest are joined with `"/"` and the result is
cleaned; joining two empty strings gives `""`. -/
def pathJoin (a b : String) : String :=
  if a = "" && b = "" then ""
  else if a = "" then pathClean b
  else pathClean (String.mk (a.data ++ '/' :: b.data))

/-- Lifecycle and per-call errors of the package: the two sentinel errors
`ErrServerAlreadyStarted` and `ErrServerIsNotRunning`, an error received from
`ListenAndServe` within the grace window, and an error from `Shutdown`. -/
inductive GoError where
  | alreadyStarted
  | notRunning
  | listenErr (msg : String)
  | shutdownErr (msg : String)
deriving DecidableEq

/-- A server being assembled by `New` while the options run: only the
configuration pointer matters to the embedded claims (`nil` = `none`); the
logger is an injectable diagnostics sink with no effect on results and is not
modelled. -/
structure ServerBuild where
  config : Option Configuration

/-- Go `type Option func(*Server)`. -/
abbrev ServerOption : Type := ServerBuild → ServerBuild

/-- Go `func WithAddress(address string) Option`. -/
def withAddress (address : String) : ServerOption := fun s =>
  let c := s.config.getD (NewConfiguration DefaultConfigurationHandlers)
  { s with config := some { c with Address := address } }

/-- Go `func WithPort(port int) Option`. -/
def withPort (port : Int) : ServerOption := fun s =>
  let c := s.config.getD (NewConfiguration DefaultConfigurationHandlers)
  { s with config := some { c with Port := port } }

/-- Go `func WithEndpoint(path string) Option`. -/
def withEndpoint (path : String) : ServerOption := fun s =>
  let c := s.config.getD (NewConfiguration DefaultConfigurationHandlers)
  { s with config := some { c with Endpoint := path } }

/-- Go `func WithHandlers(handlers map[string]Metadata) Option`. -/
def withHandlers (handlers : List (String × Metadata)) : ServerOption := fun s =>
  let c := s.config.getD (NewConfiguration DefaultConfigurationHandlers)
  { s with config := some { c with Handlers := handlers } }

/-- Go `func WithConfiguration(c *Configuration) Option` (the pointer may be nil). -/
def withConfiguration (c : Option Configuration) : ServerOption := fun s =>
  { s with config := c }

/-- Go `func WithConfigFile(path string) Option`: call `NewConfigFromFile`;
on error log and return without touching the configuration, otherwise install
the loaded configuration. The argument is the decoded-document outcome for
the given path (see `NewConfigFromFile`). -/
def withConfigFile (decoded : Except String JsonConfiguration) : ServerOption := fun s =>
  match NewConfigFromFile decoded with
  | Except.error _ => s
  | Except.ok c => { s with config := some c }

/-- A constructed server: the final configuration, the route table built from
it, and the lifecycle status field (`Server.status` tested against `nil`). -/
structure BuiltServer where
  config : Configuration
  routes : List (String × Metadata)
  status : Bool

/-- Route table registered by `New`: the bare endpoint serving the literal
`"ok"`, then one route per handler at `path.Join(endpoint, key)`. -/
def buildRoutes (c : Configuration) : List (String × Metadata) :=
  (c.Endpoint, fun _ => "ok") :: c.Handlers.map fun kv => (pathJoin c.Endpoint kv.1, kv.2)

/-- The configuration in effect after `New` applies all options and fills in
the default when none set one. -/
def effectiveConfig (opts : List ServerOption) : Configuration :=
  ((opts.foldl (fun (s : ServerBuild) (o : ServerOption) => o s)
      { config := none }).config).getD
    (NewConfiguration DefaultConfigurationHandlers)

/-- Go `func New(opts ...Option) (*Server, error)`: apply the options in
order, default the configuration if still nil, normalize the endpoint to be
slash-prefixed (Go indexes `Endpoint[0]`, which panics on an empty endpoint —
modelled as `none`), and register the route table. The Go function never
returns a non-nil error. -/
def New (opts : List ServerOption) : Option BuiltServer :=
  let c := effectiveConfig opts
  if c.Endpoint = "" then none
  else
    let c := { c with Endpoint := ensureSlash c.Endpoint }
    some { config := c, routes := buildRoutes c, status := false }

/-- Exact-path dispatch of the registered route table: the response body for a
request path, `none` when no route is registered at it. The request-time
environment is passed to the handler, as each handler invokes its provider on
every request. -/
def serve (routes : List (String × Metadata)) (env : Env) (path : String) : Option String :=
  (routes.lookup path).map fun h => h env

/-- Go `func (s *Server) Start(ctx context.Context) error`: refuse when the
status channel is already non-nil; otherwise create the channel, launch the
accept loop and wait up to 100 ms for an error from it. `bindOutcome` is the
outcome of that wait: `some msg` means `ListenAndServe` failed within the
window (status is reset to nil and the error returned), `none` means no error
arrived and `Start` reports success with status left non-nil. -/
def Start (s : BuiltServer) (bindOutcome : Option String) :
    BuiltServer × Option GoError :=
  if s.status then (s, some GoError.alreadyStarted)
  else
    match bindOutcome with
    | some msg => ({ s with status := false }, some (GoError.listenErr msg))
    | none => ({ s with status := true }, none)

/-- Go `func (s *Server) Stop(ctx context.Context) error`: refuse when the
status channel is nil; otherwise clear it and return the outcome of the
bounded graceful `Shutdown` call (`shutdownOutcome`, an external collaborator). -/
def Stop (s : BuiltServer) (shutdownOutcome : Option String) :
    BuiltServer × Option GoError :=
  if !s.status then (s, some GoError.notRunning)
  else ({ s with status := false }, shutdownOutcome.map GoError.shutdownErr)

/-!
Interleaving model of two concurrent `Start` calls on one server.

`Server.Start` touches the shared field `s.status` with plain, unsynchronized
accesses (no mutex, no atomic). In the execution where no `ListenAndServe`
error arrives within the 100 ms grace window, `Start` performs, in order:
  - pc 0: read `s.status`; if non-nil, return `ErrServerAlreadyStarted`
    (lines 172–174);
  - pc 1: write `s.status = make(chan error)` (line 176);
  - pc 2: the `select` times out with no error and `Start` returns `nil`
    (lines 184–190).
Each phase is modelled as one atomic step; interleavings of the steps of two
such calls are driven by a schedule (a list of thread choices). This
sequentially consistent interleaving model is generous to the code: the Go
memory model gives no stronger guarantee for these racy accesses.
-/

/-- One `Start` caller in the interleaving model: its program counter and, once
it returns, its result (`none` = returned `nil`). -/
structure StartThread where
  pc : Nat
  result : Option (Option GoError)
deriving DecidableEq

/-- Shared status field plus the two `Start` callers. -/
structure RaceState where
  status : Bool
  t1 : StartThread
  t2 : StartThread
deriving DecidableEq

/-- Both callers at their first step, server not started. -/
def raceStart : RaceState :=
  { status := false
    t1 := { pc := 0, result := none }
    t2 := { pc := 0, result := none } }

/-- One atomic step of a `Start` caller against the shared status field (see
the interleaving model notes above). A finished thread does nothing. -/
def stepStart (status : Bool) (t : StartThread) : Bool × StartThread :=
  match t.result with
  | some _ => (status, t)
  | none =>
      match t.pc with
      | 0 =>
          if status then (status, { t with result := some (some GoError.alreadyStarted) })
          else (status, { t with pc := 1 })
      | 1 => (true, { t with pc := 2 })
      | _ => (status, { t with result := some none })

/-- Run a schedule: `true` steps the first caller, `false` the second. -/
def runSched (sched : List Bool) (st : RaceState) : RaceState :=
  match sched with
  | [] => st
  | b :: rest =>
      if b then
        let p := stepStart st.status st.t1
        runSched rest { st with status := p.1, t1 := p.2 }
      else
        let p := stepStart st.status st.t2
        runSched rest { st with status := p.1, t2 := p.2 }

/-!
Helper lemmas shared by the claim theorems.
-/

/-- The result of `ensureSlash` always begins with a slash. -/
theorem startsWithSlash_ensureSlash (s : String) :
    startsWithSlash (ensureSlash s) = true := by
  unfold ensureSlash
  split
  · assumption
  · rfl

/-- A string already beginning with a slash is left unchanged by `ensureSlash`. -/
theorem ensureSlash_of_startsWithSlash (s : String) (h : startsWithSlash s = true) :
    ensureSlash s = s := by
  simp [ensureSlash, h]

/-- Slash-prefix normalization is idempotent. -/
theorem ensureSlash_ensureSlash (s : String) :
    ensureSlash (ensureSlash s) = ensureSlash s :=
  ensureSlash_of_startsWithSlash _ (startsWithSlash_ensureSlash s)

/-- The merged configuration's port: the document's value when positive, the
default otherwise. -/
theorem mergeConfig_Port (jc : JsonConfiguration) :
    (mergeConfig jc).Port = if jc.Port > 0 then jc.Port else DefaultPort := by
  simp only [mergeConfig, NewConfiguration]
  split_ifs <;> rfl

/-- The merged configuration's shutdown timeout: the document's value when
positive, the default otherwise. -/
theorem mergeConfig_ShutdownTimeout (jc : JsonConfiguration) :
    (mergeConfig jc).ShutdownTimeout
      = if jc.ShutdownTimeout > 0 then jc.ShutdownTimeout else DefaultShutdownTimeout := by
  simp only [mergeConfig, NewConfiguration]
  split_ifs <;> rfl

/-- The merged configuration's address: the document's value when non-empty,
the default otherwise. -/
theorem mergeConfig_Address (jc : JsonConfiguration) :
    (mergeConfig jc).Address = if jc.Address ≠ "" then jc.Address else DefaultAddress := by
  simp only [mergeConfig, NewConfiguration]
  split_ifs <;> rfl

/-- The merged configuration's endpoint: the slash-normalized document value
when non-empty, the default otherwise. -/
theorem mergeConfig_Endpoint (jc : JsonConfiguration) :
    (mergeConfig jc).Endpoint
      = if jc.Endpoint ≠ "" then ensureSlash jc.Endpoint else DefaultEndpoint := by
  simp only [mergeConfig, NewConfiguration]
  split_ifs <;> rfl

/-- The merged configuration's handlers are always the converted `metadata`
mapping, regardless of the rest of the document. -/
theorem mergeConfig_Handlers (jc : JsonConfiguration) :
    (mergeConfig jc).Handlers = convert jc.Handlers := rfl

/-- Inversion of a successful `New`: the effective endpoint was non-empty, the
stored configuration is the effective one with a slash-normalized endpoint, the
route table is built from the stored configuration, and the server starts out
stopped. -/
theorem New_some_inv (opts : List ServerOption) (srv : BuiltServer)
    (h : New opts = some srv) :
    (effectiveConfig opts).Endpoint ≠ ""
    ∧ srv.config
        = { effectiveConfig opts with
              Endpoint := ensureSlash (effectiveConfig opts).Endpoint }
    ∧ srv.routes = buildRoutes srv.config
    ∧ srv.status = false := by
  simp only [New] at h
  by_cases he : (effectiveConfig opts).Endpoint = ""
  · rw [if_pos he] at h
    exact absurd h (by simp)
  · rw [if_neg he] at h
    obtain rfl := Option.some.inj h
    exact ⟨he, rfl, rfl, rfl⟩

/-!
Claim theorems.
-/

/-- Claim C6: building a configuration from an override set with an empty or
nil handler mapping yields a configuration whose handler set equals the
built-in default handler set (empty means "no override", never "serve
nothing"), while a non-empty mapping is substituted as given; all other fields
take their default values either way. -/
theorem C6_newConfiguration_empty_override (handlers : List (String × Metadata)) :
    (NewConfiguration handlers).Handlers
        = (if handlers.isEmpty then DefaultConfigurationHandlers else handlers)
    ∧ (NewConfiguration handlers).Address = DefaultAddress
    ∧ (NewConfiguration handlers).Endpoint = DefaultEndpoint
    ∧ (NewConfiguration handlers).Port = DefaultPort
    ∧ (NewConfiguration handlers).ShutdownTimeout = DefaultShutdownTimeout :=
  ⟨rfl, rfl, rfl, rfl, rfl⟩

/-- Claim C2 counterexample: decoding the empty document (all fields absent,
hence carrying Go zero values) yields an empty handler set, although the
built-in default handler set is non-empty — the absent `metadata` mapping does
not leave the default handlers in place. -/
theorem C2_absent_metadata_counterexample :
    (NewConfigFromFile (Except.ok
        { Address := "", Endpoint := "", Handlers := [], Port := 0,
          ShutdownTimeout := 0 })).map Configuration.Handlers = Except.ok []
    ∧ DefaultConfigurationHandlers ≠ [] :=
  ⟨rfl, by simp [DefaultConfigurationHandlers]⟩

/-- Claim C2 amended: `NewConfigFromFile` overrides the port and shutdown
timeout only when positive and the address and endpoint only when non-empty,
keeping the defaults otherwise; the handler set, however, is always replaced
by the converted `metadata` mapping, so an absent (or empty) `metadata` key
yields an empty handler set, not the built-in default handler set. -/
theorem C2_merge_field_overrides (jc : JsonConfiguration) :
    (mergeConfig jc).Port = (if jc.Port > 0 then jc.Port else DefaultPort)
    ∧ (mergeConfig jc).ShutdownTimeout
        = (if jc.ShutdownTimeout > 0 then jc.ShutdownTimeout else DefaultShutdownTimeout)
    ∧ (mergeConfig jc).Address = (if jc.Address ≠ "" then jc.Address else DefaultAddress)
    ∧ (mergeConfig jc).Endpoint
        = (if jc.Endpoint ≠ "" then ensureSlash jc.Endpoint else DefaultEndpoint)
    ∧ (mergeConfig jc).Handlers = convert jc.Handlers
    ∧ convert [] = [] :=
  ⟨mergeConfig_Port jc, mergeConfig_ShutdownTimeout jc, mergeConfig_Address jc,
   mergeConfig_Endpoint jc, mergeConfig_Handlers jc, rfl⟩

/-- Claim C7: for every non-empty document endpoint the decoded configuration's
endpoint begins with a slash; a server built by `New` has a slash-prefixed
endpoint; decoding an endpoint without a leading slash (e.g.
`"custom/endpoint"`) prepends one; an endpoint already beginning with a slash
is left unchanged; and the normalization is idempotent. -/
theorem C7_endpoint_normalization (jc : JsonConfiguration)
    (opts : List ServerOption) (srv : BuiltServer)
    (hjc : jc.Endpoint ≠ "") (hs : New opts = some srv) :
    startsWithSlash (mergeConfig jc).Endpoint = true
    ∧ startsWithSlash srv.config.Endpoint = true
    ∧ (mergeConfig { jc with Endpoint := "custom/endpoint" }).Endpoint
        = "/custom/endpoint"
    ∧ (startsWithSlash jc.Endpoint = true → (mergeConfig jc).Endpoint = jc.Endpoint)
    ∧ ensureSlash (ensureSlash jc.Endpoint) = ensureSlash jc.Endpoint := by
  obtain ⟨-, hcfg, -, -⟩ := New_some_inv opts srv hs
  refine ⟨?_, ?_, ?_, ?_, ensureSlash_ensureSlash _⟩
  · rw [mergeConfig_Endpoint, if_pos hjc]
    exact startsWithSlash_ensureSlash _
  · rw [hcfg]
    exact startsWithSlash_ensureSlash _
  · rfl
  · intro hsw
    rw [mergeConfig_Endpoint, if_pos hjc]
    exact ensureSlash_of_startsWithSlash _ hsw

/-- Claim C7 witness: instantiated at the decoded document with endpoint
`"custom/endpoint"` and at the server built with no options. -/
theorem C7_endpoint_normalization_witness :
    startsWithSlash (mergeConfig
        { Address := "", Endpoint := "custom/endpoint", Handlers := [],
          Port := 0, ShutdownTimeout := 0 }).Endpoint = true
    ∧ (mergeConfig
        { Address := "", Endpoint := "custom/endpoint", Handlers := [],
          Port := 0, ShutdownTimeout := 0 }).Endpoint = "/custom/endpoint" := by
  have h := C7_endpoint_normalization
    { Address := "", Endpoint := "custom/endpoint", Handlers := [],
      Port := 0, ShutdownTimeout := 0 }
    []
    { config := { Port := 80, Address := "169.254.169.254",
                  Endpoint := "/computeMetadata/v1",
                  Handlers := [("project/project-id", fun _ => "test-project-id")],
                  ShutdownTimeout := 5 },
      routes := [("/computeMetadata/v1", fun _ => "ok"),
                 ("/computeMetadata/v1/project/project-id",
                  fun _ => "test-project-id")],
      status := false }
    (by decide) rfl
  exact ⟨h.1, by rw [show ({ Address := "", Endpoint := "custom/endpoint", Handlers := [], Port := 0, ShutdownTimeout := 0 } : JsonConfiguration) = { ({ Address := "", Endpoint := "custom/endpoint", Handlers := [], Port := 0, ShutdownTimeout := 0 } : JsonConfiguration) with Endpoint := "custom/endpoint" } from rfl]; exact h.2.2.1⟩

/-- Claim C10: `New` panics (modelled as `none`) exactly when the effective
configuration's endpoint is the empty string — it indexes the endpoint's first
byte with no emptiness guard — and in particular panics for
`WithConfiguration` carrying an empty endpoint; for every other option list it
is total. -/
theorem C10_new_panics_on_empty_endpoint (opts : List ServerOption) :
    (New opts = none ↔ (effectiveConfig opts).Endpoint = "")
    ∧ New [withConfiguration (some
        { Port := 0, Address := "", Endpoint := "", Handlers := [],
          ShutdownTimeout := 0 })] = none := by
  refine ⟨⟨fun h => ?_, fun he => by simp [New, he]⟩, rfl⟩
  by_contra he
  simp [New, he] at h

/-- Claim C8: a failing configuration-from-file directive (unreadable or
undecodable source) does not abort construction — `New` with the failing
directive anywhere in the option list builds exactly the server that the
remaining directives alone would build (defaults when none set a
configuration). -/
theorem C8_config_file_failure_skipped (pre post : List ServerOption) (e : String) :
    New (pre ++ withConfigFile (Except.error e) :: post) = New (pre ++ post) := by
  have h : effectiveConfig (pre ++ withConfigFile (Except.error e) :: post)
      = effectiveConfig (pre ++ post) := by
    unfold effectiveConfig
    rw [List.foldl_append, List.foldl_append, List.foldl_cons]
    rfl
  simp only [New, h]

/-- Claim C1: on a server built by `New`, if `Start` returns nil and a
subsequent `Stop` returns nil, a further `Start` (whose accept loop again
reports no error within the grace window) returns nil — and in particular does
not return `ErrServerAlreadyStarted` whatever the new accept loop does: the
full lifecycle is repeatable on one instance. -/
theorem C1_lifecycle_repeatable (opts : List ServerOption) (srv : BuiltServer)
    (b sd : Option String)
    (_hnew : New opts = some srv)
    (h1 : (Start srv b).2 = none)
    (h2 : (Stop (Start srv b).1 sd).2 = none) :
    (Start (Stop (Start srv b).1 sd).1 none).2 = none
    ∧ ∀ b2 : Option String,
        (Start (Stop (Start srv b).1 sd).1 b2).2 ≠ some GoError.alreadyStarted := by
  cases hst : srv.status with
  | true => simp [Start, hst] at h1
  | false =>
    cases b with
    | some msg => simp [Start, hst] at h1
    | none =>
      refine ⟨by simp [Start, Stop, hst], fun b2 => ?_⟩
      cases b2 <;> simp [Start, Stop, hst]

/-- Claim C1 witness: the default-built server starts, stops and starts again,
each call returning nil. -/
theorem C1_lifecycle_repeatable_witness :
    (Start (Stop (Start
      { config := { Port := 80, Address := "169.254.169.254",
                    Endpoint := "/computeMetadata/v1",
                    Handlers := [("project/project-id", fun _ => "test-project-id")],
                    ShutdownTimeout := 5 },
        routes := [("/computeMetadata/v1", fun _ => "ok"),
                   ("/computeMetadata/v1/project/project-id",
                    fun _ => "test-project-id")],
        status := false } none).1 none).1 none).2 = none :=
  (C1_lifecycle_repeatable [] _ none none rfl rfl rfl).1

/-- Claim C3: `Start` returns `ErrServerAlreadyStarted` exactly when the
server is not stopped, and then changes no state (the server stays running);
`Stop` returns `ErrServerIsNotRunning` exactly when the server is stopped, and
then changes no state. Both results are the synchronous return values of the
calls. -/
theorem C3_lifecycle_state_errors (srv : BuiltServer) (b sd : Option String) :
    ((Start srv b).2 = some GoError.alreadyStarted ↔ srv.status = true)
    ∧ (srv.status = true → (Start srv b).1 = srv)
    ∧ ((Stop srv sd).2 = some GoError.notRunning ↔ srv.status = false)
    ∧ (srv.status = false → (Stop srv sd).1 = srv) := by
  cases hst : srv.status
  · cases b <;> cases sd <;> simp [Start, Stop, hst]
  · cases b <;> cases sd <;> simp [Start, Stop, hst]

/-- Claim C3 witness: a second `Start` on a running default-built server
returns `ErrServerAlreadyStarted` and leaves the state unchanged; `Stop` on
the never-started server returns `ErrServerIsNotRunning` and leaves the state
unchanged. -/
theorem C3_lifecycle_state_errors_witness :
    ((Start
        { config := NewConfiguration DefaultConfigurationHandlers,
          routes := [], status := true } none).2 = some GoError.alreadyStarted
      ∧ (Start
        { config := NewConfiguration DefaultConfigurationHandlers,
          routes := [], status := true } none).1
        = { config := NewConfiguration DefaultConfigurationHandlers,
            routes := [], status := true })
    ∧ ((Stop
        { config := NewConfiguration DefaultConfigurationHandlers,
          routes := [], status := false } none).2 = some GoError.notRunning
      ∧ (Stop
        { config := NewConfiguration DefaultConfigurationHandlers,
          routes := [], status := false } none).1
        = { config := NewConfiguration DefaultConfigurationHandlers,
            routes := [], status := false }) :=
  ⟨⟨(C3_lifecycle_state_errors
        { config := NewConfiguration DefaultConfigurationHandlers,
          routes := [], status := true } none none).1.mpr rfl,
    (C3_lifecycle_state_errors
        { config := NewConfiguration DefaultConfigurationHandlers,
          routes := [], status := true } none none).2.1 rfl⟩,
   ⟨(C3_lifecycle_state_errors
        { config := NewConfiguration DefaultConfigurationHandlers,
          routes := [], status := false } none none).2.2.1.mpr rfl,
    (C3_lifecycle_state_errors
        { config := NewConfiguration DefaultConfigurationHandlers,
          routes := [], status := false } none none).2.2.2 rfl⟩⟩

/-- Looking up a joined handler path in the mapped handler routes finds the
handler's provider, provided no other handler joins to the same absolute path
(Go's mux would reject such a duplicate registration at construction time). -/
theorem lookup_join_routes (endpoint : String) (hs : List (String × Metadata))
    (k : String) (p : Metadata) (hk : (k, p) ∈ hs)
    (huniq : ∀ k2 p2, (k2, p2) ∈ hs →
      pathJoin endpoint k2 = pathJoin endpoint k → k2 = k ∧ p2 = p) :
    (hs.map fun kv => (pathJoin endpoint kv.1, kv.2)).lookup (pathJoin endpoint k)
      = some p := by
  induction hs with
  | nil => cases hk
  | cons hd tl ih =>
    obtain ⟨k2, p2⟩ := hd
    by_cases heq : pathJoin endpoint k = pathJoin endpoint k2
    · obtain ⟨hk2, hp2⟩ := huniq k2 p2 (List.mem_cons_self _ _) heq.symm
      subst hk2
      subst hp2
      simp [List.lookup]
    · have hne2 : (pathJoin endpoint k == pathJoin endpoint k2) = false :=
        beq_eq_false_iff_ne.mpr heq
      simp only [List.map_cons, List.lookup, hne2]
      apply ih
      · rcases List.mem_cons.mp hk with h | h
        · exact absurd (congrArg (fun q => pathJoin endpoint q.1) h) heq
        · exact h
      · intro k3 p3 h3 hp3
        exact huniq k3 p3 (List.mem_cons_of_mem _ h3) hp3

/-- Claim C4: on a server built by `New`, a request to the exact path obtained
by joining the root path with a configured handler key returns exactly what
that handler's provider produces from the environment at request time (so two
requests against different environments get the two corresponding provider
outputs — an environment-derived provider performs an independent read per
request), and a request to the bare root path returns the literal `"ok"`.
The uniqueness hypothesis excludes handler keys whose joined path collides
with the root path or with another handler (Go's mux panics on duplicate
registration). -/
theorem C4_request_routing (opts : List ServerOption) (srv : BuiltServer)
    (k : String) (p : Metadata) (env1 env2 : Env)
    (hnew : New opts = some srv)
    (hk : (k, p) ∈ srv.config.Handlers)
    (hne : pathJoin srv.config.Endpoint k ≠ srv.config.Endpoint)
    (huniq : ∀ k2 p2, (k2, p2) ∈ srv.config.Handlers →
      pathJoin srv.config.Endpoint k2 = pathJoin srv.config.Endpoint k →
        k2 = k ∧ p2 = p) :
    serve srv.routes env1 (pathJoin srv.config.Endpoint k) = some (p env1)
    ∧ serve srv.routes env2 (pathJoin srv.config.Endpoint k) = some (p env2)
    ∧ serve srv.routes env1 srv.config.Endpoint = some "ok" := by
  obtain ⟨-, -, hroutes, -⟩ := New_some_inv opts srv hnew
  rw [hroutes]
  have hbeq : (pathJoin srv.config.Endpoint k == srv.config.Endpoint) = false :=
    beq_eq_false_iff_ne.mpr hne
  have hfind := lookup_join_routes srv.config.Endpoint srv.config.Handlers k p hk huniq
  refine ⟨?_, ?_, ?_⟩
  · simp only [serve, buildRoutes, List.lookup, hbeq, hfind]
    rfl
  · simp only [serve, buildRoutes, List.lookup, hbeq, hfind]
    rfl
  · simp [serve, buildRoutes, List.lookup]

/-- Claim C4 witness: a server built with one environment-derived handler at
key `"ev"` reading `X_A` serves `""` when `X_A` is unset and `"hello"` when
`X_A` is `"hello"` — one independent environment read per request — and serves
the literal `"ok"` at the bare root path. -/
theorem C4_request_routing_witness :
    serve [("/computeMetadata/v1", fun _ => "ok"),
           ("/computeMetadata/v1/ev", fun env => env "X_A")]
        (fun _ => "") "/computeMetadata/v1/ev" = some ""
    ∧ serve [("/computeMetadata/v1", fun _ => "ok"),
             ("/computeMetadata/v1/ev", fun env => env "X_A")]
        (fun n => if n = "X_A" then "hello" else "") "/computeMetadata/v1/ev"
        = some "hello"
    ∧ serve [("/computeMetadata/v1", fun _ => "ok"),
             ("/computeMetadata/v1/ev", fun env => env "X_A")]
        (fun _ => "") "/computeMetadata/v1" = some "ok" := by
  have h := C4_request_routing [withHandlers [("ev", fun env => env "X_A")]]
    { config := { Port := 80, Address := "169.254.169.254",
                  Endpoint := "/computeMetadata/v1",
                  Handlers := [("ev", fun env => env "X_A")],
                  ShutdownTimeout := 5 },
      routes := [("/computeMetadata/v1", fun _ => "ok"),
                 ("/computeMetadata/v1/ev", fun env => env "X_A")],
      status := false }
    "ev" (fun env => env "X_A") (fun _ => "")
    (fun n => if n = "X_A" then "hello" else "")
    rfl (List.Mem.head _) (by decide)
    (by
      intro k2 p2 h2 _
      rw [List.mem_singleton] at h2
      exact ⟨congrArg Prod.fst h2, congrArg Prod.snd h2⟩)
  exact ⟨h.1, h.2.1, h.2.2⟩

/-- Claim C5: a decoded `metadata` entry with a `value` key becomes a static
provider that returns the generic string form of that value whatever the
environment; an entry with an `env` key (and no `value` key) becomes a
provider that reads the named environment variable afresh on each invocation
(so it returns `""` exactly when the variable is unset at that call, and the
variable's current value otherwise); and an entry matching neither shape —
not an object, or an object with neither key — contributes nothing to the
converted handler set, with no error reported. -/
theorem C5_convert_entry_shapes (fields : List (String × JValue)) (v2 v : JValue)
    (k : String) :
    (fields.lookup "value" = some v2 →
        convertEntry (JValue.obj fields) = some (fun _ => sprintV v2))
    ∧ (fields.lookup "value" = none → fields.lookup "env" = some v2 →
        convertEntry (JValue.obj fields) = some (fun env => env (sprintV v2)))
    ∧ ((∀ fs, v = JValue.obj fs →
          fs.lookup "value" = none ∧ fs.lookup "env" = none) →
        convertEntry v = none ∧ convert [(k, v)] = []) := by
  refine ⟨fun h => ?_, fun h1 h2 => ?_, fun h => ?_⟩
  · simp [convertEntry, h]
  · simp [convertEntry, h1, h2]
  · have hnone : convertEntry v = none := by
      cases v with
      | obj fs =>
          obtain ⟨hv, he⟩ := h fs rfl
          simp [convertEntry, hv, he]
      | null => rfl
      | boolean b => rfl
      | num n => rfl
      | str s => rfl
      | arr xs => rfl
    exact ⟨hnone, by simp [convert, List.filterMap, hnone]⟩

/-- Claim C5 witness: `{"value": "always the same"}` becomes the constant
provider of `"always the same"`; `{"env": "X_A"}` becomes the provider reading
`X_A`, which yields `""` for an environment where `X_A` is unset and
`"hello"` for one where `X_A` is `"hello"`; and a non-object entry is dropped
from the converted handler set. -/
theorem C5_convert_entry_shapes_witness :
    convertEntry (JValue.obj [("value", JValue.str "always the same")])
      = some (fun _ => "always the same")
    ∧ convertEntry (JValue.obj [("env", JValue.str "X_A")])
      = some (fun env => env "X_A")
    ∧ (fun env : Env => env "X_A") (fun _ => "") = ""
    ∧ (fun env : Env => env "X_A") (fun n => if n = "X_A" then "hello" else "")
      = "hello"
    ∧ convert [("bad", JValue.str "oops")] = [] := by
  refine ⟨?_, ?_, rfl, rfl, ?_⟩
  · exact (C5_convert_entry_shapes [("value", JValue.str "always the same")]
      (JValue.str "always the same") JValue.null "bad").1 rfl
  · exact (C5_convert_entry_shapes [("env", JValue.str "X_A")]
      (JValue.str "X_A") JValue.null "bad").2.1 rfl rfl
  · exact ((C5_convert_entry_shapes [] JValue.null (JValue.str "oops") "bad").2.2
      (fun fs h => JValue.noConfusion h)).2

/-- Claim C9 counterexample: with the unsynchronized status field, the
interleaving in which both `Start` calls pass the status check before either
writes the field ends with both calls returning nil — two overlapping `Start`
calls can both believe they succeeded. -/
theorem C9_overlapping_starts_counterexample :
    (runSched [true, false, true, false, true, false] raceStart).t1.result
      = some none
    ∧ (runSched [true, false, true, false, true, false] raceStart).t2.result
      = some none :=
  ⟨rfl, rfl⟩

/-- Claim C9 amended: the run-state transitions of `Start` are not
synchronized, and overlapping `Start` calls can both return success; only when
the two calls are serialized (either one running all of its steps before the
other begins) does exactly one return nil while the other returns
`ErrServerAlreadyStarted`. -/
theorem C9_serialized_starts_exclusive (firstIsT1 : Bool) :
    ((runSched (if firstIsT1 then [true, true, true, false, false, false]
        else [false, false, false, true, true, true]) raceStart).t1.result
      = some none
    ∧ (runSched (if firstIsT1 then [true, true, true, false, false, false]
        else [false, false, false, true, true, true]) raceStart).t2.result
      = some (some GoError.alreadyStarted))
    ∨ ((runSched (if firstIsT1 then [true, true, true, false, false, false]
        else [false, false, false, true, true, true]) raceStart).t1.result
      = some (some GoError.alreadyStarted)
    ∧ (runSched (if firstIsT1 then [true, true, true, false, false, false]
        else [false, false, false, true, true, true]) raceStart).t2.result
      = some none) := by
  cases firstIsT1
  · exact Or.inr ⟨rfl, rfl⟩
  · exact Or.inl ⟨rfl, rfl⟩
